import Mathlib

/-!
Verification development for the pyproject.toml version-declaration engine of
check-python-versions (file `src/check_python_versions/sources/pyproject.py`).

The TOML document tree is shallowly embedded as `Toml` / `TOMLDocument`; the
Python functions of `pyproject.py` are translated as functions over that tree.
Python runtime exceptions (KeyError, TypeError, AttributeError raised when a
value has an unexpected shape) are made explicit with `Except String`.
Components that `pyproject.py` imports from modules not present in the sample
(`setup_py.py` codecs, `utils`, the tomlkit library) are modelled from the
specification and marked as such in their doc comments.
-/

/-- A TOML value as produced by tomlkit: a string scalar, an array, or a
table.  (Only the shapes exercised by `pyproject.py` are represented; tomlkit
strings subclass `str`, arrays subclass `list`, tables behave as dicts.) -/
inductive Toml where
  | str : String → Toml
  | list : List Toml → Toml
  | table : List (String × Toml) → Toml

/-- A loaded TOML document: tomlkit's `TOMLDocument` behaves as a top-level
table (an ordered mapping from keys to values). -/
abbrev TOMLDocument := List (String × Toml)

/-- Computation that may raise a Python exception (message records the
exception class). -/
abbrev Exc := Except String

/- Keyword constants from pyproject.py. -/

def CLASSIFIERS : String := "classifiers"

def DEPENDENCIES : String := "dependencies"

def PYTHON : String := "python"

def PYTHON_REQUIRES : String := "requires-python"

def TOOL : String := "tool"

def POETRY : String := "poetry"

def BUILD_SYSTEM : String := "build-system"

def BUILD_BACKEND : String := "build-backend"

def REQUIRES : String := "requires"

def PROJECT : String := "project"

def SETUPTOOLS : String := "setuptools"

def FLIT : String := "flit"

/-- Whether `needle` occurs as a contiguous substring of `hay` (Python `needle in hay`
for strings). -/
def strContainsSub (hay needle : String) : Bool :=
  (List.range (hay.data.length + 1)).any
    (fun i => needle.data.isPrefixOf (hay.data.drop i))

/-- Python membership test `needle in v` for a string needle against a TOML
value: substring test on strings, element equality on lists, key membership on
tables. -/
def memPy (needle : String) (v : Toml) : Bool :=
  match v with
  | .str s => strContainsSub s needle
  | .list xs => xs.any (fun x => match x with | .str s => s == needle | _ => false)
  | .table kvs => kvs.any (fun kv => kv.1 == needle)

/-- Python iteration over a TOML value: a string yields its characters (as
one-character strings), a list its elements, a table its keys. -/
def pyIter (v : Toml) : List Toml :=
  match v with
  | .str s => s.data.map (fun c => .str (String.mk [c]))
  | .list xs => xs
  | .table kvs => kvs.map (fun kv => .str kv.1)

/-- Python `v.get(k, d)`: defined for dicts only; any other receiver raises
`AttributeError`. -/
def dictGet (v : Toml) (k : String) (d : Toml) : Exc Toml :=
  match v with
  | .table kvs => .ok ((kvs.lookup k).getD d)
  | _ => .error "AttributeError"

/-- Python `v[k]` for a string key: KeyError on a dict without the key,
TypeError on non-dict receivers. -/
def pyIndex (v : Toml) (k : String) : Exc Toml :=
  match v with
  | .table kvs =>
      match kvs.lookup k with
      | some x => .ok x
      | none => .error "KeyError"
  | _ => .error "TypeError"

/-- Python `doc.get(k, d)` on the top-level document (always a dict, never raises). -/
def docGetD (doc : TOMLDocument) (k : String) (d : Toml) : Toml :=
  (doc.lookup k).getD d

/-- Python truthiness of a TOML value (empty strings, arrays and tables are
falsy). -/
def pyTruthy (v : Toml) : Bool :=
  match v with
  | .str s => !s.data.isEmpty
  | .list xs => !xs.isEmpty
  | .table kvs => !kvs.isEmpty

/-- Python `isinstance(v, str)` (tomlkit strings subclass `str`). -/
def isStrV (v : Toml) : Bool :=
  match v with
  | .str _ => true
  | _ => false

/-- Python `isinstance(v, list)` (tomlkit arrays subclass `list`). -/
def isListV (v : Toml) : Bool :=
  match v with
  | .list _ => true
  | _ => false

/-- Dict item assignment `kvs[k] = v`: replaces the value in place (keeping
the key's position) or appends a new entry. -/
def setKey (kvs : List (String × Toml)) (k : String) (v : Toml) :
    List (String × Toml) :=
  if kvs.any (fun p => p.1 == k) then
    kvs.map (fun p => if p.1 == k then (k, v) else p)
  else
    kvs ++ [(k, v)]

/-- Python `container[k] = v`: item assignment, TypeError on non-dict
receivers. -/
def pySetIndex (container : Toml) (k : String) (v : Toml) : Exc Toml :=
  match container with
  | .table kvs => .ok (.table (setKey kvs k v))
  | _ => .error "TypeError"

/-- Short-circuiting Python `or` over exception-raising boolean expressions. -/
def orE (a b : Exc Bool) : Exc Bool :=
  match a with
  | .ok true => .ok true
  | .ok false => b
  | .error e => .error e

/-- Source function `is_poetry_toml` (pyproject.py lines 64-76): poetry sub-table under
`tool`, else the "poetry" marker in `build-system.build-backend`, else the
marker in an entry of `build-system.requires`. -/
def is_poetry_toml (doc : TOMLDocument) : Exc Bool :=
  if memPy POETRY (docGetD doc TOOL (.table [])) then .ok true
  else
    match doc.lookup BUILD_SYSTEM with
    | some bs =>
        (match dictGet bs BUILD_BACKEND (.str "") with
         | .error e => .error e
         | .ok bb =>
            if memPy POETRY bb then .ok true
            else
              match dictGet bs REQUIRES (.list []) with
              | .error e => .error e
              | .ok req =>
                  if (pyIter req).any (fun x => memPy POETRY x) then .ok true
                  else .ok false)
    | none => .ok false

/-- Source function `is_setuptools_toml` (pyproject.py lines 79-94): the "setuptools" marker
in `build-system.build-backend`, else in an entry of `build-system.requires`,
else a setuptools sub-table under `tool` (the tool check comes last here). -/
def is_setuptools_toml (doc : TOMLDocument) : Exc Bool :=
  match doc.lookup BUILD_SYSTEM with
  | some bs =>
      (match dictGet bs BUILD_BACKEND (.str "") with
       | .error e => .error e
       | .ok bb =>
          if memPy SETUPTOOLS bb then .ok true
          else
            match dictGet bs REQUIRES (.list []) with
            | .error e => .error e
            | .ok req =>
                if (pyIter req).any (fun x => memPy SETUPTOOLS x) then .ok true
                else if memPy SETUPTOOLS (docGetD doc TOOL (.table [])) then .ok true
                else .ok false)
  | none =>
      if memPy SETUPTOOLS (docGetD doc TOOL (.table [])) then .ok true
      else .ok false

/-- Source function `is_flit_toml` (pyproject.py lines 97-109): flit sub-table under `tool`,
else the "flit" marker in `build-system.build-backend`, else the marker in an
entry of `build-system.requires`. -/
def is_flit_toml (doc : TOMLDocument) : Exc Bool :=
  if memPy FLIT (docGetD doc TOOL (.table [])) then .ok true
  else
    match doc.lookup BUILD_SYSTEM with
    | some bs =>
        (match dictGet bs BUILD_BACKEND (.str "") with
         | .error e => .error e
         | .ok bb =>
            if memPy FLIT bb then .ok true
            else
              match dictGet bs REQUIRES (.list []) with
              | .error e => .error e
              | .ok req =>
                  if (pyIter req).any (fun x => memPy FLIT x) then .ok true
                  else .ok false)
    | none => .ok false

/-- Modelled from the spec: the Version model of `versions.py` (not under
src/), spec section 4.1 — an ordered pair (major, minor) with an optional
micro component. -/
structure Version where
  major : Nat
  minor : Nat
  micro : Option Nat := none
deriving DecidableEq, BEq, Repr

/-- Strict order on the optional micro component, a missing micro being
lowest. -/
def microLtb : Option Nat → Option Nat → Bool
  | none, none => false
  | none, some _ => true
  | some _, none => false
  | some a, some b => decide (a < b)

/-- Modelled from the spec: lexicographic order over (major, minor, micro),
missing micro lowest (spec section 4.1). -/
def Version.ltb (a b : Version) : Bool :=
  decide (a.major < b.major) ||
    (a.major == b.major &&
      (decide (a.minor < b.minor) ||
        (a.minor == b.minor && microLtb a.micro b.micro)))

/-- Modelled from the spec: `Version.render` — "major.minor" or
"major.minor.micro" (spec section 3). -/
def Version.render (v : Version) : String :=
  match v.micro with
  | none => Nat.repr v.major ++ "." ++ Nat.repr v.minor
  | some m => Nat.repr v.major ++ "." ++ Nat.repr v.minor ++ "." ++ Nat.repr m

/-- Split a character list on a separator character (used for '.', ',' and
newline splitting). -/
def splitChar (sep : Char) : List Char → List (List Char)
  | [] => [[]]
  | c :: rest =>
      match splitChar sep rest with
      | [] => if c = sep then [[], []] else [[c]]
      | h :: t => if c = sep then [] :: h :: t else (c :: h) :: t

/-- Parse a decimal digit. -/
def charDigit (c : Char) : Option Nat :=
  if '0' ≤ c ∧ c ≤ '9' then some (c.toNat - '0'.toNat) else none

/-- Parse a non-empty all-digit character list as a natural number. -/
def digitsToNat (cs : List Char) : Option Nat :=
  match cs with
  | [] => none
  | _ =>
      cs.foldl
        (fun acc c =>
          match acc, charDigit c with
          | some n, some d => some (n * 10 + d)
          | _, _ => none)
        (some 0)

/-- Modelled from the spec: `Version.from_string` (`parse` of spec section
4.1) — two or three dot-separated numeric components; malformed input yields
none (FormatError). -/
def Version.from_string (s : String) : Option Version :=
  match (splitChar '.' s.data).map digitsToNat with
  | [some a, some b] => some ⟨a, b, none⟩
  | [some a, some b, some c] => some ⟨a, b, some c⟩
  | _ => none

/-- Insert a version into an ascending duplicate-free list, keeping it
ascending and duplicate-free. -/
def insertV (v : Version) : List Version → List Version
  | [] => [v]
  | x :: xs =>
      if Version.ltb v x then v :: x :: xs
      else if v = x then x :: xs
      else x :: insertV v xs

/-- Sort ascending and deduplicate. -/
def sortVersions (vs : List Version) : List Version :=
  vs.foldr insertV []

/-- The canonical version-classifier head (`'Programming Language :: Python
:: '`). -/
def classifierHead : String := "Programming Language :: Python :: "

/-- Modelled from the spec: `get_versions_from_classifiers` of `setup_py.py`
(not under src/), spec section 4.3 decode — keep entries matching the fixed
textual head, parse the version suffix, deduplicate and sort ascending;
non-matching entries are ignored, not errors. -/
def get_versions_from_classifiers (classifiers : List Toml) : List Version :=
  sortVersions (classifiers.filterMap (fun c =>
    match c with
    | .str s =>
        if classifierHead.data.isPrefixOf s.data then
          Version.from_string (String.mk (s.data.drop classifierHead.data.length))
        else none
    | _ => none))

/-- Modelled from the spec: `update_classifiers` of `setup_py.py` (not under
src/), spec section 4.3 encode — keep the non-version classifiers and emit
one canonical classifier string per new version, ascending. -/
def update_classifiers (classifiers : List Toml) (new_versions : List Version) :
    List String :=
  (classifiers.filterMap (fun c =>
    match c with
    | .str s => if classifierHead.data.isPrefixOf s.data then none else some s
    | _ => none)) ++
    new_versions.map (fun v => classifierHead ++ v.render)

/-- Modelled from the spec: `compute_python_requires` of `setup_py.py` (not
under src/), spec section 4.2 encode — given an ascending version list, emit
`>=<space><first>` followed by one `!=<space><v>.*` clause, joined by
`comma`, for every known version above the first that is not in the list.
The source reads the known-version universe from a module-level maximum; here
it is the explicit `known` argument (spec glossary, "Known versions"). -/
def compute_python_requires (new_versions known : List Version)
    (comma space : String) : String :=
  match new_versions with
  | [] => ""
  | first :: _ =>
      let exclusions :=
        known.filter (fun v => Version.ltb first v && !(new_versions.contains v))
      ">=" ++ space ++ first.render ++
        String.join (exclusions.map (fun e => comma ++ "!=" ++ space ++ e.render ++ ".*"))

/-- A parsed range-expression clause: a lower bound (`>=V`) or an exclusion
(`!=V.*`). -/
inductive ReqClause where
  | ge : Version → ReqClause
  | ne : Version → ReqClause

/-- Strip ASCII whitespace from both ends. -/
def stripWS (cs : List Char) : List Char :=
  ((cs.dropWhile fun c => c == ' ' || c == '\n' || c == '\t' || c == '\r').reverse.dropWhile
      fun c => c == ' ' || c == '\n' || c == '\t' || c == '\r').reverse

/-- Parse one already-stripped clause of a range expression. -/
def parseClause (cs : List Char) : Option ReqClause :=
  if ['>', '='].isPrefixOf cs then
    (Version.from_string (String.mk (stripWS (cs.drop 2)))).map .ge
  else if ['!', '='].isPrefixOf cs then
    let rest := stripWS (cs.drop 2)
    if ['*', '.'].isPrefixOf rest.reverse then
      (Version.from_string (String.mk rest.dropLast.dropLast)).map .ne
    else none
  else none

/-- Diagnostic emitted by the range-expression decoder on malformed input. -/
def badRequiresMsg : String := "Bad python_requires specifier"

/-- Modelled from the spec: `parse_python_requires` of `setup_py.py` (not
under src/), spec section 4.2 decode — reject a multi-line expression
(treated as not a simple string); split on the comma separator; parse one
lower-bound clause and zero or more `!=V.*` exclusion clauses; expand the
lower bound against the known versions minus the exclusions.  A malformed or
missing lower bound yields a diagnostic and none (ParseError surfaced as a
warning plus none, spec sections 6 and 7). -/
def parse_python_requires (s : String) (known : List Version) :
    Option (List Version) × List String :=
  if strContainsSub s "\n" then (none, [badRequiresMsg])
  else
    let parsed := ((splitChar ',' s.data).map stripWS).map parseClause
    if parsed.any (fun c => c.isNone) then (none, [badRequiresMsg])
    else
      let cs := parsed.filterMap id
      let lows := cs.filterMap (fun c => match c with | .ge v => some v | _ => none)
      let excls := cs.filterMap (fun c => match c with | .ne v => some v | _ => none)
      match lows with
      | [low] =>
          (some (known.filter (fun v =>
            !(Version.ltb v low) &&
              !(excls.any (fun e => e.major == v.major && e.minor == v.minor)))), [])
      | _ => (none, [badRequiresMsg])

/-- Source function `_get_poetry_classifiers` (pyproject.py lines 112-119). -/
def _get_poetry_classifiers (doc : TOMLDocument) : Exc Toml :=
  match doc.lookup TOOL with
  | none => .ok (.list [])
  | some tool =>
      if !memPy POETRY tool then .ok (.list [])
      else
        match pyIndex tool POETRY with
        | .error e => .error e
        | .ok poetry =>
            if !memPy CLASSIFIERS poetry then .ok (.list [])
            else pyIndex poetry CLASSIFIERS

/-- Source function `_get_setuptools_flit_classifiers` (pyproject.py lines 122-127). -/
def _get_setuptools_flit_classifiers (doc : TOMLDocument) : Exc Toml :=
  match doc.lookup PROJECT with
  | none => .ok (.list [])
  | some proj =>
      if !memPy CLASSIFIERS proj then .ok (.list [])
      else pyIndex proj CLASSIFIERS

/-- Source function `_get_pyproject_toml_classifiers` (pyproject.py lines 130-140): start
from the empty list, replace it with the poetry classifiers when the poetry
detector fires, then replace the result with the [project] classifiers when
the setuptools or flit detector fires. -/
def _get_pyproject_toml_classifiers (doc : TOMLDocument) : Exc Toml :=
  match is_poetry_toml doc with
  | .error e => .error e
  | .ok p =>
      match (if p then _get_poetry_classifiers doc else .ok (.list [])) with
      | .error e => .error e
      | .ok c1 =>
          match orE (is_setuptools_toml doc) (is_flit_toml doc) with
          | .error e => .error e
          | .ok sf =>
              if sf then _get_setuptools_flit_classifiers doc else .ok c1

/-- Source function `_get_poetry_python_requires` (pyproject.py lines 143-152). -/
def _get_poetry_python_requires (doc : TOMLDocument) : Exc (Option Toml) :=
  match doc.lookup TOOL with
  | none => .ok none
  | some tool =>
      if !memPy POETRY tool then .ok none
      else
        match pyIndex tool POETRY with
        | .error e => .error e
        | .ok poetry =>
            if !memPy DEPENDENCIES poetry then .ok none
            else
              match pyIndex poetry DEPENDENCIES with
              | .error e => .error e
              | .ok deps =>
                  if !memPy PYTHON deps then .ok none
                  else
                    match pyIndex deps PYTHON with
                    | .error e => .error e
                    | .ok v => .ok (some v)

/-- Source function `_get_setuptools_flit_python_requires` (pyproject.py lines 155-160). -/
def _get_setuptools_flit_python_requires (doc : TOMLDocument) : Exc (Option Toml) :=
  match doc.lookup PROJECT with
  | none => .ok none
  | some proj =>
      if !memPy PYTHON_REQUIRES proj then .ok none
      else
        match pyIndex proj PYTHON_REQUIRES with
        | .error e => .error e
        | .ok v => .ok (some v)

/-- Source function `_get_pyproject_toml_python_requires` (pyproject.py lines 163-173): start
from the none value, replace it with the poetry python dependency when the
poetry detector fires, then replace the result with the [project]
requires-python value when the setuptools or flit detector fires. -/
def _get_pyproject_toml_python_requires (doc : TOMLDocument) : Exc (Option Toml) :=
  match is_poetry_toml doc with
  | .error e => .error e
  | .ok p =>
      match (if p then _get_poetry_python_requires doc else .ok none) with
      | .error e => .error e
      | .ok r1 =>
          match orE (is_setuptools_toml doc) (is_flit_toml doc) with
          | .error e => .error e
          | .ok sf =>
              if sf then _get_setuptools_flit_python_requires doc else .ok r1

/-- The diagnostic of `get_supported_python_versions` and
`update_supported_python_versions` (pyproject.py lines 187 and 217). -/
def clsWarnMsg : String := "The value specified for classifiers is not an array"

/-- The diagnostic of `get_python_requires` (pyproject.py line 201). -/
def pyDepWarnMsg : String := "The value specified for python dependency is not a string"

/-- Source function `get_supported_python_versions` (pyproject.py lines 176-190): a falsy
classifiers value (absent field included) yields the empty list silently; a
truthy non-list value yields the empty list with a diagnostic; otherwise the
classifiers are decoded.  The second component collects the diagnostics
written to the error stream. -/
def get_supported_python_versions (doc : TOMLDocument) :
    Exc (List Version × List String) :=
  match _get_pyproject_toml_classifiers doc with
  | .error e => .error e
  | .ok c =>
      if !pyTruthy c then .ok ([], [])
      else if !isListV c then .ok ([], [clsWarnMsg])
      else
        .ok (get_versions_from_classifiers
              (match c with | .list xs => xs | _ => []), [])

/-- Source function `get_python_requires` (pyproject.py lines 193-204): a falsy or non-string
python dependency value (absent field included) yields none with a
diagnostic; otherwise the range expression is decoded against the known
versions (the source reads the known-version universe from a module-level
maximum; here it is the explicit `known` argument). -/
def get_python_requires (doc : TOMLDocument) (known : List Version) :
    Exc (Option (List Version) × List String) :=
  match _get_pyproject_toml_python_requires doc with
  | .error e => .error e
  | .ok none => .ok (none, [pyDepWarnMsg])
  | .ok (some v) =>
      match v with
      | .str s =>
          if s.data.isEmpty then .ok (none, [pyDepWarnMsg])
          else .ok (parse_python_requires s known)
      | _ => .ok (none, [pyDepWarnMsg])

/-- Source function `_set_poetry_classifiers` (pyproject.py lines 249-255):
`table[TOOL][POETRY][CLASSIFIERS] = new_value`, threaded functionally (the
source mutates the shared table in place). -/
def _set_poetry_classifiers (doc : TOMLDocument) (new_value : Toml) :
    Exc TOMLDocument :=
  match pyIndex (.table doc) TOOL with
  | .error e => .error e
  | .ok tool =>
      match pyIndex tool POETRY with
      | .error e => .error e
      | .ok poetry =>
          match pySetIndex poetry CLASSIFIERS new_value with
          | .error e => .error e
          | .ok poetry2 =>
              match pySetIndex tool POETRY poetry2 with
              | .error e => .error e
              | .ok tool2 => .ok (setKey doc TOOL tool2)

/-- Source function `_set_setuptools_flit_classifiers` (pyproject.py lines 258-264):
`table[PROJECT][CLASSIFIERS] = new_value`. -/
def _set_setuptools_flit_classifiers (doc : TOMLDocument) (new_value : Toml) :
    Exc TOMLDocument :=
  match pyIndex (.table doc) PROJECT with
  | .error e => .error e
  | .ok proj =>
      match pySetIndex proj CLASSIFIERS new_value with
      | .error e => .error e
      | .ok proj2 => .ok (setKey doc PROJECT proj2)

/-- Source function `_set_poetry_python_requires` (pyproject.py lines 281-287):
`table[TOOL][POETRY][DEPENDENCIES][PYTHON] = new_value`. -/
def _set_poetry_python_requires (doc : TOMLDocument) (new_value : Toml) :
    Exc TOMLDocument :=
  match pyIndex (.table doc) TOOL with
  | .error e => .error e
  | .ok tool =>
      match pyIndex tool POETRY with
      | .error e => .error e
      | .ok poetry =>
          match pyIndex poetry DEPENDENCIES with
          | .error e => .error e
          | .ok deps =>
              match pySetIndex deps PYTHON new_value with
              | .error e => .error e
              | .ok deps2 =>
                  match pySetIndex poetry DEPENDENCIES deps2 with
                  | .error e => .error e
                  | .ok poetry2 =>
                      match pySetIndex tool POETRY poetry2 with
                      | .error e => .error e
                      | .ok tool2 => .ok (setKey doc TOOL tool2)

/-- Source function `_set_setuptools_flit_python_requires` (pyproject.py lines 290-296):
`table[PROJECT][PYTHON_REQUIRES] = new_value`. -/
def _set_setuptools_flit_python_requires (doc : TOMLDocument) (new_value : Toml) :
    Exc TOMLDocument :=
  match pyIndex (.table doc) PROJECT with
  | .error e => .error e
  | .ok proj =>
      match pySetIndex proj PYTHON_REQUIRES new_value with
      | .error e => .error e
      | .ok proj2 => .ok (setKey doc PROJECT proj2)

/-- Source function `_update_pyproject_toml_classifiers` (pyproject.py lines 267-278): the
source mutates one shared table, so when both detectors fire the poetry write
happens first and the setuptools/flit write is applied to the already-written
table; the detectors are evaluated on the table as the source evaluates them
(the poetry write does not change any key the detectors inspect, but the
threading is kept faithful).  Returns none when no convention is detected
(the source's initial `None`).  The updated document stands in for the
serialized file lines the source returns (serialization is tomlkit's). -/
def _update_pyproject_toml_classifiers (doc : TOMLDocument) (new_value : Toml) :
    Exc (Option TOMLDocument) :=
  match is_poetry_toml doc with
  | .error e => .error e
  | .ok p =>
      match (if p then (_set_poetry_classifiers doc new_value).map some
             else .ok none) with
      | .error e => .error e
      | .ok r1 =>
          let doc1 := match r1 with | some d => d | none => doc
          match orE (is_setuptools_toml doc1) (is_flit_toml doc1) with
          | .error e => .error e
          | .ok sf =>
              if sf then (_set_setuptools_flit_classifiers doc1 new_value).map some
              else .ok r1

/-- Source function `_update_pyproject_python_requires` (pyproject.py lines 299-310): same
shape as the classifiers update, except that the source initializes its
result to an empty line list rather than `None` (modelled as the empty
document), so a document matching no convention yields that empty value
rather than none. -/
def _update_pyproject_python_requires (doc : TOMLDocument) (new_value : Toml) :
    Exc (Option TOMLDocument) :=
  match is_poetry_toml doc with
  | .error e => .error e
  | .ok p =>
      match (if p then (_set_poetry_python_requires doc new_value).map some
             else .ok (some [])) with
      | .error e => .error e
      | .ok r1 =>
          let doc1 := match r1 with | some d => if p then d else doc | none => doc
          match orE (is_setuptools_toml doc1) (is_flit_toml doc1) with
          | .error e => .error e
          | .ok sf =>
              if sf then (_set_setuptools_flit_python_requires doc1 new_value).map some
              else .ok r1

/-- Source function `update_supported_python_versions` (pyproject.py lines 206-220): a
non-list or falsy classifiers value (absent field included) yields none with
a diagnostic; otherwise the classifiers are re-encoded for the new versions
and written back. -/
def update_supported_python_versions (doc : TOMLDocument)
    (new_versions : List Version) : Exc (Option TOMLDocument × List String) :=
  match _get_pyproject_toml_classifiers doc with
  | .error e => .error e
  | .ok c =>
      if !isListV c || !pyTruthy c then .ok (none, [clsWarnMsg])
      else
        let new_classifiers :=
          update_classifiers (match c with | .list xs => xs | _ => []) new_versions
        match _update_pyproject_toml_classifiers doc
            (.list (new_classifiers.map Toml.str)) with
        | .error e => .error e
        | .ok r => .ok (r, [])

/-- Source function `update_python_requires` (pyproject.py lines 223-246), on an already
loaded document: none silently when the python dependency field is absent;
otherwise the comma style (`,` when a comma occurs with no comma-space) and
space style (` ` when `> ` or `= ` occurs) are inferred from the existing
value, the new range expression is computed against the known versions, and
the field is written back. -/
def update_python_requires (doc : TOMLDocument)
    (new_versions known : List Version) :
    Exc (Option TOMLDocument × List String) :=
  match _get_pyproject_toml_python_requires doc with
  | .error e => .error e
  | .ok none => .ok (none, [])
  | .ok (some prv) =>
      let comma := if memPy "," prv && !memPy ", " prv then "," else ", "
      let space := if memPy "> " prv || memPy "= " prv then " " else ""
      let new_requires := compute_python_requires new_versions known comma space
      match _update_pyproject_python_requires doc (.str new_requires) with
      | .error e => .error e
      | .ok r => .ok (r, [])

/-- A stream access event: a full read, or an explicit `seek(n)`. -/
inductive SEvent where
  | read : SEvent
  | seek : Nat → SEvent
deriving DecidableEq, Repr

/-- Modelled from the spec: an open text file handle (spec section 5;
`utils.open_file`/`is_file_object` are not under src/).  The handle pairs the
document its full text parses to with the text length and the current
position; reading from the start yields that document, reading from any later
position yields the document the remaining text parses to — the empty
document, since the only positions the code ever produces are the start and
the end of the stream. -/
structure FStream where
  doc : TOMLDocument
  len : Nat
  pos : Nat

/-- Read the whole remaining stream (as its parsed document) and leave the
position at end of stream. -/
def streamRead (st : FStream) : TOMLDocument × FStream :=
  (if st.pos == 0 then st.doc else [], { st with pos := st.len })

/-- Python `stream.seek(n)`. -/
def streamSeek (st : FStream) (n : Nat) : FStream :=
  { st with pos := n }

/-- Source function `update_python_requires` (pyproject.py lines 223-246) called on an open
file handle: the first load reads the stream; when the field is present the
code seeks back to position 0 ("Make sure we can read it twice please...")
and `_update_pyproject_python_requires` loads — reads — the stream a second
time.  The result carries the final stream state and the ordered list of
stream accesses. -/
def update_python_requires_stream (st : FStream) (new_versions known : List Version) :
    Exc ((Option TOMLDocument × List String) × FStream × List SEvent) :=
  let r1 := streamRead st
  match _get_pyproject_toml_python_requires r1.1 with
  | .error e => .error e
  | .ok none => .ok ((none, []), r1.2, [.read])
  | .ok (some prv) =>
      let comma := if memPy "," prv && !memPy ", " prv then "," else ", "
      let space := if memPy "> " prv || memPy "= " prv then " " else ""
      let new_requires := compute_python_requires new_versions known comma space
      let st2 := streamSeek r1.2 0
      let r2 := streamRead st2
      match _update_pyproject_python_requires r2.1 (.str new_requires) with
      | .error e => .error e
      | .ok r => .ok ((r, []), r2.2, [.read, .seek 0, .read])

/-- One physical line of a loaded TOML text: a table header, a key-value
line, or any other line (comment, blank, continuation); every kind keeps the
raw text of the line. -/
inductive TLine where
  | header : String → String → TLine
  | keyval : String → String → TLine
  | other : String → TLine

/-- The raw text a line was loaded from. -/
def TLine.raw : TLine → String
  | .header _ r => r
  | .keyval _ r => r
  | .other r => r

/-- Classify one raw line, keeping its raw text untouched. -/
def classifyLine (rawLine : String) : TLine :=
  match stripWS rawLine.data with
  | [] => .other rawLine
  | c :: cs =>
      if c = '#' then .other rawLine
      else if c = '[' then
        (match cs.getLast? with
         | some ']' => .header (String.mk cs.dropLast) rawLine
         | _ => .other rawLine)
      else if (c :: cs).contains '=' then
        .keyval (String.mk (stripWS ((c :: cs).takeWhile (fun x => x != '='))))
          rawLine
      else .other rawLine

/-- Modelled from the spec: the format-preserving Document of spec sections 3
and 4.5; the source delegates to the tomlkit library (not part of this
repository), whose documents keep the raw text of every region. -/
structure Document where
  lines : List TLine

/-- Modelled from the spec: `load_toml` (pyproject.py lines 52-61) for an
in-memory text, as the layout-preserving load of spec section 4.5 (the source
delegates the parse to tomlkit's `load`). -/
def load_toml (s : String) : Document :=
  ⟨(splitChar '\n' s.data).map (fun l => classifyLine (String.mk l))⟩

/-- Join character-list lines with a separator character (inverse of
`splitChar`). -/
def joinChar (sep : Char) : List (List Char) → List Char
  | [] => []
  | [l] => l
  | l :: ls => l ++ sep :: joinChar sep ls

/-- Modelled from the spec: tomlkit's `dumps` — serialize a loaded document
back to text from the raw text of its regions (spec section 4.5). -/
def dumps (d : Document) : String :=
  String.mk (joinChar '\n' (d.lines.map (fun l => l.raw.data)))

/-- Total `v.get(k, d)` for stating the detector checks on well-shaped
documents (matches `dictGet` whenever the receiver is a table). -/
def tableGetD (v : Toml) (k : String) (d : Toml) : Toml :=
  match v with
  | .table kvs => (kvs.lookup k).getD d
  | _ => d

/-- Detector check (1): a marker-named sub-table under the `tool` table. -/
def tool_marker_check (doc : TOMLDocument) (marker : String) : Bool :=
  memPy marker (docGetD doc TOOL (.table []))

/-- Detector check (2): the marker occurs in `build-system.build-backend`. -/
def backend_marker_check (doc : TOMLDocument) (marker : String) : Bool :=
  match doc.lookup BUILD_SYSTEM with
  | some bs => memPy marker (tableGetD bs BUILD_BACKEND (.str ""))
  | none => false

/-- Detector check (3): the marker occurs in an entry of
`build-system.requires`. -/
def requires_marker_check (doc : TOMLDocument) (marker : String) : Bool :=
  match doc.lookup BUILD_SYSTEM with
  | some bs => (pyIter (tableGetD bs REQUIRES (.list []))).any (fun x => memPy marker x)
  | none => false

/-- The `build-system` value, when present, is a table (otherwise the
detectors raise AttributeError instead of returning). -/
def wfBS (doc : TOMLDocument) : Bool :=
  match doc.lookup BUILD_SYSTEM with
  | some (.table _) => true
  | some _ => false
  | none => true

/-- The `tool` value and the nested `tool.poetry` and
`tool.poetry.dependencies` values, where present, are tables (otherwise the
poetry getters raise instead of returning). -/
def wfTool (doc : TOMLDocument) : Bool :=
  match doc.lookup TOOL with
  | none => true
  | some (.table tkvs) =>
      (match tkvs.lookup POETRY with
       | none => true
       | some (.table pkvs) =>
           (match pkvs.lookup DEPENDENCIES with
            | none => true
            | some (.table _) => true
            | some _ => false)
       | some _ => false)
  | some _ => false

/-- The `project` value, when present, is a table. -/
def wfProject (doc : TOMLDocument) : Bool :=
  match doc.lookup PROJECT with
  | none => true
  | some (.table _) => true
  | some _ => false

/-- Well-shaped document: the values at the fixed paths the code indexes into
are tables where present.  Every pyproject.toml shaped as in the repository's
tests satisfies this; TOML permits violating it (for example
`build-system = "x"`). -/
def wfDoc (doc : TOMLDocument) : Bool :=
  wfBS doc && wfTool doc && wfProject doc

/-- The diagnostics an update operation wrote to the error stream. -/
def warningsOf (r : Exc (Option TOMLDocument × List String)) : List String :=
  match r with
  | .ok x => x.2
  | .error _ => []

/-- The value at `tool.poetry.dependencies.python`, when that path exists. -/
def poetryPythonAt (doc : TOMLDocument) : Option Toml :=
  match doc.lookup TOOL with
  | some (.table t) =>
      (match t.lookup POETRY with
       | some (.table p) =>
           (match p.lookup DEPENDENCIES with
            | some (.table d) => d.lookup PYTHON
            | _ => none)
       | _ => none)
  | _ => none

/-- The value at `project.requires-python`, when that path exists. -/
def projectRequiresAt (doc : TOMLDocument) : Option Toml :=
  match doc.lookup PROJECT with
  | some (.table p) => p.lookup PYTHON_REQUIRES
  | _ => none

/-- The `project.requires-python` value of the document an update returned. -/
def updResultField (r : Exc (Option TOMLDocument × List String)) : Option Toml :=
  match r with
  | .ok (some d, _) => projectRequiresAt d
  | _ => none

/-- The `tool.poetry.dependencies.python` value of the document an internal
update returned. -/
def updResultPoetryPython (r : Exc (Option TOMLDocument)) : Option Toml :=
  match r with
  | .ok (some d) => poetryPythonAt d
  | _ => none

/-- The stream-access trace of a file-handle update. -/
def eventsOf (r : Exc ((Option TOMLDocument × List String) × FStream × List SEvent)) :
    List SEvent :=
  match r with
  | .ok x => x.2.2
  | .error _ => []

/- Concrete documents and version universes used by the theorems below. -/

/-- Known versions 2.7, 3.0 .. 3.2 (the repository's style-preservation test
pins the maximum Python 3 version to 3.2). -/
def knownTo3_2 : List Version := [⟨2,7,none⟩, ⟨3,0,none⟩, ⟨3,1,none⟩, ⟨3,2,none⟩]

/-- Known versions 2.7, 3.0 .. 3.11 (the default maximum in the repository's
tests that do not pin it). -/
def knownTo3_11 : List Version :=
  [⟨2,7,none⟩, ⟨3,0,none⟩, ⟨3,1,none⟩, ⟨3,2,none⟩, ⟨3,3,none⟩, ⟨3,4,none⟩,
   ⟨3,5,none⟩, ⟨3,6,none⟩, ⟨3,7,none⟩, ⟨3,8,none⟩, ⟨3,9,none⟩, ⟨3,10,none⟩,
   ⟨3,11,none⟩]

/-- The new target version set 2.7, 3.2. -/
def targetC4 : List Version := [⟨2,7,none⟩, ⟨3,2,none⟩]

/-- A flit document declaring `requires-python = ">=2.7,!=3.0.*"` (no space
after the comma). -/
def docC4 : TOMLDocument :=
  [(PROJECT, .table [("name", .str "foo"), (PYTHON_REQUIRES, .str ">=2.7,!=3.0.*")]),
   (BUILD_SYSTEM, .table [(REQUIRES, .list [.str "flit_core >=3.2,<4"]),
                          (BUILD_BACKEND, .str "flit_core.buildapi")])]

/-- The range expression the code produces for `docC4` when the known
versions reach 3.11. -/
def longC4 : String :=
  ">=2.7,!=3.0.*,!=3.1.*,!=3.3.*,!=3.4.*,!=3.5.*,!=3.6.*,!=3.7.*,!=3.8.*,!=3.9.*,!=3.10.*,!=3.11.*"

/-- A flit document with no classifiers and no requires-python field. -/
def docAbsent : TOMLDocument :=
  [(PROJECT, .table [("name", .str "foo")]),
   (BUILD_SYSTEM, .table [(BUILD_BACKEND, .str "flit_core.buildapi")])]

/-- A document whose `tool` table contains both a poetry and a setuptools
sub-table. -/
def docBothPS : TOMLDocument :=
  [(TOOL, .table [(POETRY, .table []), (SETUPTOOLS, .table [])])]

/-- A document with a setuptools sub-table under `tool` but a string-valued
`build-system` entry. -/
def docC2bad : TOMLDocument :=
  [(TOOL, .table [(SETUPTOOLS, .table [])]), (BUILD_SYSTEM, .str "x")]

/-- A flit document whose requires-python value is a multi-line string. -/
def docC6 : TOMLDocument :=
  [(PROJECT, .table [("name", .str "foo"),
                     (PYTHON_REQUIRES, .str ">=2.7,\n!=3.0.*")]),
   (BUILD_SYSTEM, .table [(BUILD_BACKEND, .str "flit_core.buildapi")])]

/-- A document that is simultaneously poetry (tool.poetry present) and flit
(flit marker in the build backend), declaring the python requirement in both
locations. -/
def docC7 : TOMLDocument :=
  [(TOOL, .table [(POETRY, .table [(DEPENDENCIES, .table [(PYTHON, .str "^3.6")])])]),
   (PROJECT, .table [(PYTHON_REQUIRES, .str ">=3.6")]),
   (BUILD_SYSTEM, .table [(BUILD_BACKEND, .str "flit_core.buildapi")])]

/-- A loadable document whose `build-system` value is the string "poetry"
(valid TOML: `build-system = "poetry"`). -/
def docCrash : TOMLDocument := [(BUILD_SYSTEM, .str "poetry")]

/-- A flit document whose classifiers field is present and an empty list. -/
def docC10 : TOMLDocument :=
  [(PROJECT, .table [("name", .str "foo"), (CLASSIFIERS, .list [])]),
   (BUILD_SYSTEM, .table [(BUILD_BACKEND, .str "flit_core.buildapi")])]

/-- An open file handle positioned at the start of the text of `docC4`. -/
def stC5 : FStream := ⟨docC4, 100, 0⟩

/-- The document `docC4` with its requires-python field rewritten to
`">=2.7,!=3.0.*,!=3.1.*"`. -/
def docC4upd : TOMLDocument :=
  [(PROJECT, .table [("name", .str "foo"),
                     (PYTHON_REQUIRES, .str ">=2.7,!=3.0.*,!=3.1.*")]),
   (BUILD_SYSTEM, .table [(REQUIRES, .list [.str "flit_core >=3.2,<4"]),
                          (BUILD_BACKEND, .str "flit_core.buildapi")])]

/-- The document `docC7` after the poetry write of `">=3.7"`. -/
def docC7d1 : TOMLDocument :=
  [(TOOL, .table [(POETRY, .table [(DEPENDENCIES, .table [(PYTHON, .str ">=3.7")])])]),
   (PROJECT, .table [(PYTHON_REQUIRES, .str ">=3.6")]),
   (BUILD_SYSTEM, .table [(BUILD_BACKEND, .str "flit_core.buildapi")])]

/-- The document `docC7` after both the poetry write and the [project] write of
`">=3.7"`. -/
def docC7d2 : TOMLDocument :=
  [(TOOL, .table [(POETRY, .table [(DEPENDENCIES, .table [(PYTHON, .str ">=3.7")])])]),
   (PROJECT, .table [(PYTHON_REQUIRES, .str ">=3.7")]),
   (BUILD_SYSTEM, .table [(BUILD_BACKEND, .str "flit_core.buildapi")])]

lemma splitChar_ne_nil (sep : Char) (cs : List Char) : splitChar sep cs ≠ [] := by
  cases cs with
  | nil => simp [splitChar]
  | cons c rest =>
      unfold splitChar
      cases h : splitChar sep rest with
      | nil => dsimp only; split <;> simp
      | cons hd tl => dsimp only; split <;> simp

lemma joinChar_cons (sep c : Char) (h : List Char) (t : List (List Char)) :
    joinChar sep ((c :: h) :: t) = c :: joinChar sep (h :: t) := by
  cases t with
  | nil => rfl
  | cons x xs => rfl

lemma joinChar_splitChar (sep : Char) (cs : List Char) :
    joinChar sep (splitChar sep cs) = cs := by
  induction cs with
  | nil => rfl
  | cons c rest ih =>
      unfold splitChar
      cases h : splitChar sep rest with
      | nil => exact absurd h (splitChar_ne_nil sep rest)
      | cons hd tl =>
          rw [h] at ih
          dsimp only
          by_cases hc : c = sep
          · rw [if_pos hc]
            show sep :: joinChar sep (hd :: tl) = c :: rest
            rw [ih, hc]
          · rw [if_neg hc, joinChar_cons, ih]

lemma raw_classifyLine (s : String) : (classifyLine s).raw = s := by
  unfold classifyLine
  split
  · rfl
  · split
    · rfl
    · split
      · split <;> rfl
      · split <;> rfl

/-- C8: for every document text, loading it with `load_toml` and serializing
it back without any field mutation yields text byte-identical to the input,
comments and whitespace included (spec sections 4.5 and 8; serialization is
tomlkit's, modelled as the layout-preserving line store above). -/
theorem C8_round_trip (s : String) : dumps (load_toml s) = s := by
  unfold dumps load_toml
  rw [List.map_map]
  have hmap : ((fun l : TLine => l.raw.data) ∘ fun l => classifyLine (String.mk l)) = id := by
    funext l
    show (classifyLine (String.mk l)).raw.data = l
    rw [raw_classifyLine]
  rw [hmap, List.map_id, joinChar_splitChar]

/-- C3: the convention detectors are independent predicates: on a document
whose tool namespace holds both a poetry and a setuptools sub-table,
`is_poetry_toml` and `is_setuptools_toml` both return true. -/
theorem C3_detectors_independent :
    is_poetry_toml docBothPS = .ok true ∧ is_setuptools_toml docBothPS = .ok true :=
  ⟨rfl, rfl⟩

/-- C4 fails as stated: with known versions up to 3.11 (as the claim says),
updating `">=2.7,!=3.0.*"` to the target {2.7, 3.2} does not produce
`">=2.7,!=3.0.*,!=3.1.*"` — it excludes every known version above 3.2 as
well, exactly as the repository's own multiline test records. -/
theorem C4_counterexample :
    updResultField (update_python_requires docC4 targetC4 knownTo3_11) =
      some (.str longC4) ∧ longC4 ≠ ">=2.7,!=3.0.*,!=3.1.*" :=
  ⟨rfl, by decide⟩

/-- C4 (amended): with known versions up to 3.2 (the bound the repository's
style-preservation test pins), updating `">=2.7,!=3.0.*"` to the target
{2.7, 3.2} infers comma style "," and space style "" and rewrites the field
to `">=2.7,!=3.0.*,!=3.1.*"`, which contains no space at all. -/
theorem C4_style_preserved :
    updResultField (update_python_requires docC4 targetC4 knownTo3_2) =
      some (.str ">=2.7,!=3.0.*,!=3.1.*") ∧
    strContainsSub ">=2.7,!=3.0.*,!=3.1.*" " " = false :=
  ⟨rfl, by decide⟩

lemma wfBS_table {doc : TOMLDocument} {bs : Toml} (h : wfBS doc = true)
    (hbs : doc.lookup BUILD_SYSTEM = some bs) : ∃ kvs, bs = Toml.table kvs := by
  unfold wfBS at h
  rw [hbs] at h
  cases bs with
  | table kvs => exact ⟨kvs, rfl⟩
  | str s => simp at h
  | list xs => simp at h

lemma is_poetry_toml_eq (doc : TOMLDocument) (h : wfBS doc = true) :
    is_poetry_toml doc =
      .ok (tool_marker_check doc POETRY || backend_marker_check doc POETRY ||
           requires_marker_check doc POETRY) := by
  unfold is_poetry_toml tool_marker_check backend_marker_check requires_marker_check
  cases hbs : doc.lookup BUILD_SYSTEM with
  | none =>
      by_cases h1 : memPy POETRY (docGetD doc TOOL (.table [])) <;> simp [hbs, h1]
  | some bs =>
      obtain ⟨kvs, rfl⟩ := wfBS_table h hbs
      simp only [hbs, dictGet, tableGetD]
      by_cases h1 : memPy POETRY (docGetD doc TOOL (.table []))
      · simp [h1]
      · simp only [h1, if_false, Bool.false_or]
        by_cases h2 : memPy POETRY ((kvs.lookup BUILD_BACKEND).getD (.str ""))
        · simp [h2]
        · simp only [h2, if_false, Bool.false_or]
          by_cases h3 :
              (pyIter ((kvs.lookup REQUIRES).getD (.list []))).any
                (fun x => memPy POETRY x)
          · simp [h3]
          · simp [h3]

lemma is_flit_toml_eq (doc : TOMLDocument) (h : wfBS doc = true) :
    is_flit_toml doc =
      .ok (tool_marker_check doc FLIT || backend_marker_check doc FLIT ||
           requires_marker_check doc FLIT) := by
  unfold is_flit_toml tool_marker_check backend_marker_check requires_marker_check
  cases hbs : doc.lookup BUILD_SYSTEM with
  | none =>
      by_cases h1 : memPy FLIT (docGetD doc TOOL (.table [])) <;> simp [hbs, h1]
  | some bs =>
      obtain ⟨kvs, rfl⟩ := wfBS_table h hbs
      simp only [hbs, dictGet, tableGetD]
      by_cases h1 : memPy FLIT (docGetD doc TOOL (.table []))
      · simp [h1]
      · simp only [h1, if_false, Bool.false_or]
        by_cases h2 : memPy FLIT ((kvs.lookup BUILD_BACKEND).getD (.str ""))
        · simp [h2]
        · simp only [h2, if_false, Bool.false_or]
          by_cases h3 :
              (pyIter ((kvs.lookup REQUIRES).getD (.list []))).any
                (fun x => memPy FLIT x)
          · simp [h3]
          · simp [h3]

lemma is_setuptools_toml_eq (doc : TOMLDocument) (h : wfBS doc = true) :
    is_setuptools_toml doc =
      .ok (tool_marker_check doc SETUPTOOLS || backend_marker_check doc SETUPTOOLS ||
           requires_marker_check doc SETUPTOOLS) := by
  unfold is_setuptools_toml tool_marker_check backend_marker_check requires_marker_check
  cases hbs : doc.lookup BUILD_SYSTEM with
  | none =>
      by_cases h1 : memPy SETUPTOOLS (docGetD doc TOOL (.table [])) <;> simp [hbs, h1]
  | some bs =>
      obtain ⟨kvs, rfl⟩ := wfBS_table h hbs
      simp only [hbs, dictGet, tableGetD]
      by_cases h2 : memPy SETUPTOOLS ((kvs.lookup BUILD_BACKEND).getD (.str ""))
      · simp [h2]
      · simp only [h2, if_false, Bool.false_or]
        by_cases h3 :
            (pyIter ((kvs.lookup REQUIRES).getD (.list []))).any
              (fun x => memPy SETUPTOOLS x)
        · simp [h3]
        · simp only [h3, if_false, Bool.or_false]
          by_cases h1 : memPy SETUPTOOLS (docGetD doc TOOL (.table [])) <;> simp [h1]

/-- C2 (amended): on documents whose build-system value, when present, is a
table, each detector returns true exactly when at least one of its three
checks (tool sub-table, build-backend marker, requires-entry marker)
succeeds; `is_poetry_toml` and `is_flit_toml` evaluate them in that order,
while `is_setuptools_toml` checks the build-system fields before the tool
table.  (On a document whose build-system value is not a table the
build-system checks raise AttributeError instead of returning.) -/
theorem C2_detector_checks (doc : TOMLDocument) (h : wfBS doc = true) :
    is_poetry_toml doc =
      .ok (tool_marker_check doc POETRY || backend_marker_check doc POETRY ||
           requires_marker_check doc POETRY) ∧
    is_setuptools_toml doc =
      .ok (tool_marker_check doc SETUPTOOLS || backend_marker_check doc SETUPTOOLS ||
           requires_marker_check doc SETUPTOOLS) ∧
    is_flit_toml doc =
      .ok (tool_marker_check doc FLIT || backend_marker_check doc FLIT ||
           requires_marker_check doc FLIT) :=
  ⟨is_poetry_toml_eq doc h, is_setuptools_toml_eq doc h, is_flit_toml_eq doc h⟩

/-- Witness for `C2_detector_checks` at the concrete document `docC4`. -/
theorem C2_detector_checks_witness :
    wfBS docC4 = true ∧
    (is_poetry_toml docC4 =
      .ok (tool_marker_check docC4 POETRY || backend_marker_check docC4 POETRY ||
           requires_marker_check docC4 POETRY) ∧
     is_setuptools_toml docC4 =
      .ok (tool_marker_check docC4 SETUPTOOLS || backend_marker_check docC4 SETUPTOOLS ||
           requires_marker_check docC4 SETUPTOOLS) ∧
     is_flit_toml docC4 =
      .ok (tool_marker_check docC4 FLIT || backend_marker_check docC4 FLIT ||
           requires_marker_check docC4 FLIT)) :=
  ⟨rfl, C2_detector_checks docC4 rfl⟩

/-- C2 fails as stated: on `docC2bad` the first check (the setuptools
sub-table under tool) succeeds, yet `is_setuptools_toml` does not return
true — the build-system fields are checked first and raise AttributeError
because the build-system value is a string. -/
theorem C2_counterexample :
    tool_marker_check docC2bad SETUPTOOLS = true ∧
    is_setuptools_toml docC2bad = .error "AttributeError" :=
  ⟨rfl, rfl⟩

lemma lookup_of_any {kvs : List (String × Toml)} {k : String}
    (h : kvs.any (fun p => p.1 == k) = true) : ∃ v, kvs.lookup k = some v := by
  induction kvs with
  | nil => simp at h
  | cons a t ih =>
      obtain ⟨a1, a2⟩ := a
      by_cases he : a1 = k
      · subst he
        exact ⟨a2, by simp [List.lookup]⟩
      · have hbe : (k == a1) = false := by
          cases hkb : k == a1 with
          | false => rfl
          | true => exact absurd (eq_of_beq hkb).symm he
        simp only [List.any_cons, Bool.or_eq_true] at h
        rcases h with h1 | h2
        · exact absurd (eq_of_beq h1) he
        · obtain ⟨v, hv⟩ := ih h2
          exact ⟨v, by simp [List.lookup, hbe, hv]⟩

lemma pyIndex_table_of_mem {kvs : List (String × Toml)} {k : String}
    (h : memPy k (.table kvs) = true) :
    ∃ v, kvs.lookup k = some v ∧ pyIndex (.table kvs) k = .ok v := by
  obtain ⟨v, hv⟩ := lookup_of_any (by simpa [memPy] using h)
  exact ⟨v, hv, by simp [pyIndex, hv]⟩

lemma orE_ok (a b : Bool) : orE (.ok a) (.ok b) = .ok (a || b) := by
  cases a <;> rfl

lemma wfDoc_parts {doc : TOMLDocument} (h : wfDoc doc = true) :
    wfBS doc = true ∧ wfTool doc = true ∧ wfProject doc = true := by
  unfold wfDoc at h
  have h2 := (Bool.and_eq_true _ _).mp h
  have h3 := (Bool.and_eq_true _ _).mp h2.1
  exact ⟨h3.1, h3.2, h2.2⟩

lemma _get_poetry_classifiers_ok (doc : TOMLDocument) (h : wfTool doc = true) :
    ∃ v, _get_poetry_classifiers doc = .ok v := by
  unfold _get_poetry_classifiers
  cases ht : doc.lookup TOOL with
  | none => exact ⟨_, rfl⟩
  | some tool =>
      unfold wfTool at h
      rw [ht] at h
      cases tool with
      | str s => simp at h
      | list l => simp at h
      | table tkvs =>
          dsimp only at h
          by_cases hm : memPy POETRY (Toml.table tkvs) = true
          · obtain ⟨poetry, hlk, hidx⟩ := pyIndex_table_of_mem hm
            rw [hlk] at h
            cases poetry with
            | str s => simp at h
            | list l => simp at h
            | table pkvs =>
                by_cases hc : memPy CLASSIFIERS (Toml.table pkvs) = true
                · obtain ⟨cv, hlk2, hidx2⟩ := pyIndex_table_of_mem hc
                  exact ⟨cv, by simp [hm, hidx, hc, hidx2]⟩
                · have hc' := Bool.eq_false_iff.mpr hc
                  exact ⟨.list [], by simp [hm, hidx, hc']⟩
          · have hm' := Bool.eq_false_iff.mpr hm
            exact ⟨.list [], by simp [hm']⟩

lemma _get_setuptools_flit_classifiers_ok (doc : TOMLDocument)
    (h : wfProject doc = true) :
    ∃ v, _get_setuptools_flit_classifiers doc = .ok v := by
  unfold _get_setuptools_flit_classifiers
  cases hp : doc.lookup PROJECT with
  | none => exact ⟨_, rfl⟩
  | some proj =>
      unfold wfProject at h
      rw [hp] at h
      cases proj with
      | str s => simp at h
      | list l => simp at h
      | table pkvs =>
          by_cases hc : memPy CLASSIFIERS (Toml.table pkvs) = true
          · obtain ⟨cv, hlk, hidx⟩ := pyIndex_table_of_mem hc
            exact ⟨cv, by simp [hc, hidx]⟩
          · have hc' := Bool.eq_false_iff.mpr hc
            exact ⟨.list [], by simp [hc']⟩

lemma _get_poetry_python_requires_ok (doc : TOMLDocument) (h : wfTool doc = true) :
    ∃ v, _get_poetry_python_requires doc = .ok v := by
  unfold _get_poetry_python_requires
  cases ht : doc.lookup TOOL with
  | none => exact ⟨_, rfl⟩
  | some tool =>
      unfold wfTool at h
      rw [ht] at h
      cases tool with
      | str s => simp at h
      | list l => simp at h
      | table tkvs =>
          dsimp only at h
          by_cases hm : memPy POETRY (Toml.table tkvs) = true
          · obtain ⟨poetry, hlk, hidx⟩ := pyIndex_table_of_mem hm
            rw [hlk] at h
            cases poetry with
            | str s => simp at h
            | list l => simp at h
            | table pkvs =>
                dsimp only at h
                by_cases hd : memPy DEPENDENCIES (Toml.table pkvs) = true
                · obtain ⟨deps, hlk2, hidx2⟩ := pyIndex_table_of_mem hd
                  rw [hlk2] at h
                  cases deps with
                  | str s => simp at h
                  | list l => simp at h
                  | table dkvs =>
                      by_cases hpy : memPy PYTHON (Toml.table dkvs) = true
                      · obtain ⟨pv, hlk3, hidx3⟩ := pyIndex_table_of_mem hpy
                        exact ⟨some pv, by simp [hm, hidx, hd, hidx2, hpy, hidx3]⟩
                      · have hpy' := Bool.eq_false_iff.mpr hpy
                        exact ⟨none, by simp [hm, hidx, hd, hidx2, hpy']⟩
                · have hd' := Bool.eq_false_iff.mpr hd
                  exact ⟨none, by simp [hm, hidx, hd']⟩
          · have hm' := Bool.eq_false_iff.mpr hm
            exact ⟨none, by simp [hm']⟩

lemma _get_setuptools_flit_python_requires_ok (doc : TOMLDocument)
    (h : wfProject doc = true) :
    ∃ v, _get_setuptools_flit_python_requires doc = .ok v := by
  unfold _get_setuptools_flit_python_requires
  cases hp : doc.lookup PROJECT with
  | none => exact ⟨_, rfl⟩
  | some proj =>
      unfold wfProject at h
      rw [hp] at h
      cases proj with
      | str s => simp at h
      | list l => simp at h
      | table pkvs =>
          by_cases hr : memPy PYTHON_REQUIRES (Toml.table pkvs) = true
          · obtain ⟨rv, hlk, hidx⟩ := pyIndex_table_of_mem hr
            exact ⟨some rv, by simp [hr, hidx]⟩
          · have hr' := Bool.eq_false_iff.mpr hr
            exact ⟨none, by simp [hr']⟩

lemma _get_pyproject_toml_classifiers_ok (doc : TOMLDocument)
    (h : wfDoc doc = true) :
    ∃ v, _get_pyproject_toml_classifiers doc = .ok v := by
  obtain ⟨hbs, htool, hproj⟩ := wfDoc_parts h
  unfold _get_pyproject_toml_classifiers
  rw [is_poetry_toml_eq doc hbs]
  dsimp only
  cases hp : (tool_marker_check doc POETRY || backend_marker_check doc POETRY ||
      requires_marker_check doc POETRY) with
  | true =>
      obtain ⟨c1, hc1⟩ := _get_poetry_classifiers_ok doc htool
      rw [if_pos rfl, hc1]
      dsimp only
      rw [is_setuptools_toml_eq doc hbs, is_flit_toml_eq doc hbs, orE_ok]
      dsimp only
      cases hsf : (tool_marker_check doc SETUPTOOLS || backend_marker_check doc SETUPTOOLS ||
          requires_marker_check doc SETUPTOOLS ||
          (tool_marker_check doc FLIT || backend_marker_check doc FLIT ||
           requires_marker_check doc FLIT)) with
      | true => simpa using _get_setuptools_flit_classifiers_ok doc hproj
      | false => exact ⟨c1, by simp⟩
  | false =>
      rw [if_neg (by simp)]
      dsimp only
      rw [is_setuptools_toml_eq doc hbs, is_flit_toml_eq doc hbs, orE_ok]
      dsimp only
      cases hsf : (tool_marker_check doc SETUPTOOLS || backend_marker_check doc SETUPTOOLS ||
          requires_marker_check doc SETUPTOOLS ||
          (tool_marker_check doc FLIT || backend_marker_check doc FLIT ||
           requires_marker_check doc FLIT)) with
      | true => simpa using _get_setuptools_flit_classifiers_ok doc hproj
      | false => exact ⟨.list [], by simp⟩

lemma _get_pyproject_toml_python_requires_ok (doc : TOMLDocument)
    (h : wfDoc doc = true) :
    ∃ v, _get_pyproject_toml_python_requires doc = .ok v := by
  obtain ⟨hbs, htool, hproj⟩ := wfDoc_parts h
  unfold _get_pyproject_toml_python_requires
  rw [is_poetry_toml_eq doc hbs]
  dsimp only
  cases hp : (tool_marker_check doc POETRY || backend_marker_check doc POETRY ||
      requires_marker_check doc POETRY) with
  | true =>
      obtain ⟨r1, hr1⟩ := _get_poetry_python_requires_ok doc htool
      rw [if_pos rfl, hr1]
      dsimp only
      rw [is_setuptools_toml_eq doc hbs, is_flit_toml_eq doc hbs, orE_ok]
      dsimp only
      cases hsf : (tool_marker_check doc SETUPTOOLS || backend_marker_check doc SETUPTOOLS ||
          requires_marker_check doc SETUPTOOLS ||
          (tool_marker_check doc FLIT || backend_marker_check doc FLIT ||
           requires_marker_check doc FLIT)) with
      | true => simpa using _get_setuptools_flit_python_requires_ok doc hproj
      | false => exact ⟨r1, by simp⟩
  | false =>
      rw [if_neg (by simp)]
      dsimp only
      rw [is_setuptools_toml_eq doc hbs, is_flit_toml_eq doc hbs, orE_ok]
      dsimp only
      cases hsf : (tool_marker_check doc SETUPTOOLS || backend_marker_check doc SETUPTOOLS ||
          requires_marker_check doc SETUPTOOLS ||
          (tool_marker_check doc FLIT || backend_marker_check doc FLIT ||
           requires_marker_check doc FLIT)) with
      | true => simpa using _get_setuptools_flit_python_requires_ok doc hproj
      | false => exact ⟨none, by simp⟩

/-- C9 fails as stated: on the loadable document `build-system = "poetry"`,
`get_supported_python_versions` does not return a list at all — it raises
AttributeError. -/
theorem C9_counterexample :
    get_supported_python_versions docCrash = .error "AttributeError" := rfl

/-- C9 (amended): on well-shaped documents, `get_supported_python_versions`
always returns a list — the empty one, silently or with a diagnostic, when
the classifiers value is falsy (absent field included) or not a list — and
never none, whereas `get_python_requires` returns none (with a diagnostic)
whenever the python dependency value is absent or not a string. -/
theorem C9_extract_asymmetry (doc : TOMLDocument) (known : List Version)
    (h : wfDoc doc = true) :
    (∃ l w, get_supported_python_versions doc = .ok (l, w)) ∧
    (∀ v, _get_pyproject_toml_classifiers doc = .ok v →
        pyTruthy v = false ∨ isListV v = false →
        ∃ w, get_supported_python_versions doc = .ok ([], w)) ∧
    (_get_pyproject_toml_python_requires doc = .ok none →
        get_python_requires doc known = .ok (none, [pyDepWarnMsg])) ∧
    (∀ v, _get_pyproject_toml_python_requires doc = .ok (some v) → isStrV v = false →
        get_python_requires doc known = .ok (none, [pyDepWarnMsg])) := by
  refine ⟨?_, ?_, ?_, ?_⟩
  · obtain ⟨v, hv⟩ := _get_pyproject_toml_classifiers_ok doc h
    unfold get_supported_python_versions
    rw [hv]
    dsimp only
    by_cases htv : (!pyTruthy v) = true
    · exact ⟨[], [], by rw [if_pos htv]⟩
    · by_cases hlv : (!isListV v) = true
      · exact ⟨[], [clsWarnMsg], by rw [if_neg htv, if_pos hlv]⟩
      · have hl : isListV v = true := by
          cases hx : isListV v
          · rw [hx] at hlv; exact absurd rfl hlv
          · rfl
        cases v with
        | str sv => simp [isListV] at hl
        | table kvs => simp [isListV] at hl
        | list xs =>
            exact ⟨get_versions_from_classifiers xs, [],
              by rw [if_neg htv, if_neg hlv]⟩
  · intro v hv hcase
    unfold get_supported_python_versions
    rw [hv]
    dsimp only
    by_cases htv : (!pyTruthy v) = true
    · exact ⟨[], by rw [if_pos htv]⟩
    · have htv' : pyTruthy v = true := by
        cases hx : pyTruthy v
        · rw [hx] at htv; exact absurd rfl htv
        · rfl
      rcases hcase with hf | hnl
      · rw [htv'] at hf; exact absurd hf (by simp)
      · have hlv : (!isListV v) = true := by rw [hnl]; rfl
        exact ⟨[clsWarnMsg], by rw [if_neg htv, if_pos hlv]⟩
  · intro h3
    unfold get_python_requires
    rw [h3]
  · intro v h4 hns
    unfold get_python_requires
    rw [h4]
    dsimp only
    cases v with
    | str s => simp [isStrV] at hns
    | list l => rfl
    | table kvs => rfl

/-- Witness for `C9_extract_asymmetry` at the concrete document `docC4`. -/
theorem C9_extract_asymmetry_witness :
    wfDoc docC4 = true ∧
    ((∃ l w, get_supported_python_versions docC4 = .ok (l, w)) ∧
     (∀ v, _get_pyproject_toml_classifiers docC4 = .ok v →
         pyTruthy v = false ∨ isListV v = false →
         ∃ w, get_supported_python_versions docC4 = .ok ([], w)) ∧
     (_get_pyproject_toml_python_requires docC4 = .ok none →
         get_python_requires docC4 knownTo3_2 = .ok (none, [pyDepWarnMsg])) ∧
     (∀ v, _get_pyproject_toml_python_requires docC4 = .ok (some v) → isStrV v = false →
         get_python_requires docC4 knownTo3_2 = .ok (none, [pyDepWarnMsg]))) :=
  ⟨rfl, C9_extract_asymmetry docC4 knownTo3_2 rfl⟩

/-- C1 fails as stated: on `docAbsent`, whose classifiers and requires-python
fields are both absent, `get_python_requires` and
`update_supported_python_versions` each write a diagnostic to the error
stream (exactly as the repository's own tests assert). -/
theorem C1_counterexample :
    get_python_requires docAbsent knownTo3_2 = .ok (none, [pyDepWarnMsg]) ∧
    update_supported_python_versions docAbsent targetC4 = .ok (none, [clsWarnMsg]) ∧
    ([pyDepWarnMsg] : List String) ≠ [] :=
  ⟨rfl, rfl, by simp⟩

/-- C1 (amended): when the queried fields are absent,
`get_supported_python_versions` returns the empty list silently and
`update_python_requires` returns none silently, but `get_python_requires`
and `update_supported_python_versions` return none with a diagnostic
("...not a string" / "...not an array") even though the field is merely
absent. -/
theorem C1_absent_fields (doc : TOMLDocument) (nv known : List Version)
    (hcls : _get_pyproject_toml_classifiers doc = .ok (.list []))
    (hpr : _get_pyproject_toml_python_requires doc = .ok none) :
    get_supported_python_versions doc = .ok ([], []) ∧
    update_python_requires doc nv known = .ok (none, []) ∧
    get_python_requires doc known = .ok (none, [pyDepWarnMsg]) ∧
    update_supported_python_versions doc nv = .ok (none, [clsWarnMsg]) := by
  refine ⟨?_, ?_, ?_, ?_⟩
  · unfold get_supported_python_versions
    rw [hcls]
    rfl
  · unfold update_python_requires
    rw [hpr]
  · unfold get_python_requires
    rw [hpr]
  · unfold update_supported_python_versions
    rw [hcls]
    rfl

/-- Witness for `C1_absent_fields` at the concrete document `docAbsent`. -/
theorem C1_absent_fields_witness :
    _get_pyproject_toml_classifiers docAbsent = .ok (.list []) ∧
    _get_pyproject_toml_python_requires docAbsent = .ok none ∧
    (get_supported_python_versions docAbsent = .ok ([], []) ∧
     update_python_requires docAbsent [] [] = .ok (none, []) ∧
     get_python_requires docAbsent [] = .ok (none, [pyDepWarnMsg]) ∧
     update_supported_python_versions docAbsent [] = .ok (none, [clsWarnMsg])) :=
  ⟨rfl, rfl, C1_absent_fields docAbsent [] [] rfl rfl⟩

/-- C10: on a document whose classifiers field is a present but empty list,
`get_supported_python_versions` returns the empty list with no diagnostic,
while `update_supported_python_versions` returns none and emits the
"not an array" diagnostic even though the value is a list. -/
theorem C10_empty_classifiers (doc : TOMLDocument) (nv : List Version)
    (h : _get_pyproject_toml_classifiers doc = .ok (.list [])) :
    get_supported_python_versions doc = .ok ([], []) ∧
    update_supported_python_versions doc nv = .ok (none, [clsWarnMsg]) := by
  constructor
  · unfold get_supported_python_versions
    rw [h]
    rfl
  · unfold update_supported_python_versions
    rw [h]
    rfl

/-- Witness for `C10_empty_classifiers` at the concrete document `docC10`. -/
theorem C10_empty_classifiers_witness :
    _get_pyproject_toml_classifiers docC10 = .ok (.list []) ∧
    (get_supported_python_versions docC10 = .ok ([], []) ∧
     update_supported_python_versions docC10 [⟨3,6,none⟩] = .ok (none, [clsWarnMsg])) :=
  ⟨rfl, C10_empty_classifiers docC10 [⟨3,6,none⟩] rfl⟩

lemma update_python_requires_no_warnings (doc : TOMLDocument) (nv known : List Version) :
    warningsOf (update_python_requires doc nv known) = [] := by
  unfold update_python_requires
  cases h : _get_pyproject_toml_python_requires doc with
  | error e => rfl
  | ok o =>
      cases o with
      | none => rfl
      | some prv =>
          dsimp only
          cases h2 : _update_pyproject_python_requires doc
              (.str (compute_python_requires nv known
                (if memPy "," prv && !memPy ", " prv then "," else ", ")
                (if memPy "> " prv || memPy "= " prv then " " else ""))) with
          | error e => rfl
          | ok r => rfl

/-- C6 fails as stated for the update direction: on `docC6`, whose
requires-python value is a multi-line string, `update_python_requires` does
not treat the value as malformed — it infers the style, rewrites the field
and returns the rewritten document with no diagnostic. -/
theorem C6_counterexample :
    updResultField (update_python_requires docC6 targetC4 knownTo3_2) =
      some (.str ">=2.7,!=3.0.*,!=3.1.*") ∧
    warningsOf (update_python_requires docC6 targetC4 knownTo3_2) = [] :=
  ⟨rfl, rfl⟩

/-- C6 (amended): when the range-expression field holds a multi-line string,
`get_python_requires` treats it as malformed — a diagnostic plus none, no
crash — while `update_python_requires` performs no such validation and emits
no diagnostic. -/
theorem C6_multiline (doc : TOMLDocument) (nv known : List Version) (s : String)
    (h : _get_pyproject_toml_python_requires doc = .ok (some (.str s)))
    (hnl : strContainsSub s "\n" = true) :
    get_python_requires doc known = .ok (none, [badRequiresMsg]) ∧
    warningsOf (update_python_requires doc nv known) = [] := by
  constructor
  · unfold get_python_requires
    rw [h]
    dsimp only
    have hne : s.data.isEmpty = false := by
      cases hd : s.data with
      | nil =>
          unfold strContainsSub at hnl
          rw [hd] at hnl
          simp at hnl
      | cons a l => rfl
    rw [if_neg (by simp [hne])]
    unfold parse_python_requires
    rw [if_pos hnl]
  · exact update_python_requires_no_warnings doc nv known

/-- Witness for `C6_multiline` at the concrete document `docC6`. -/
theorem C6_multiline_witness :
    _get_pyproject_toml_python_requires docC6 = .ok (some (.str ">=2.7,\n!=3.0.*")) ∧
    strContainsSub ">=2.7,\n!=3.0.*" "\n" = true ∧
    (get_python_requires docC6 knownTo3_2 = .ok (none, [badRequiresMsg]) ∧
     warningsOf (update_python_requires docC6 targetC4 knownTo3_2) = []) :=
  ⟨rfl, rfl,
   C6_multiline docC6 targetC4 knownTo3_2 ">=2.7,\n!=3.0.*" rfl rfl⟩

/-- C7 fails as stated for writes: on `docC7`, which both the poetry and the
flit detector accept, `_update_pyproject_python_requires` writes the new
value to the poetry location too — the returned document carries the new
value at `tool.poetry.dependencies.python`, not the original one. -/
theorem C7_counterexample :
    updResultPoetryPython (_update_pyproject_python_requires docC7 (.str ">=3.7")) =
      some (.str ">=3.7") ∧
    poetryPythonAt docC7 = some (.str "^3.6") :=
  ⟨rfl, rfl⟩

/-- C7 (amended): when both the poetry detector and the setuptools-or-flit
detector accept a document, the later check wins for reads — classifiers and
the python requirement are read from the [project] table — and determines
the returned value of an update; but the update writes the new value to both
locations (the poetry write happens first, on the shared table), so the
returned document reflects the poetry write as well. -/
theorem C7_later_check_wins (doc : TOMLDocument) (v : Toml) (r : Option Toml)
    (c : Toml) (d1 d2 : TOMLDocument)
    (hp : is_poetry_toml doc = .ok true)
    (hgr : _get_poetry_python_requires doc = .ok r)
    (hgc : _get_poetry_classifiers doc = .ok c)
    (hsf : orE (is_setuptools_toml doc) (is_flit_toml doc) = .ok true)
    (hs1 : _set_poetry_python_requires doc v = .ok d1)
    (hsf1 : orE (is_setuptools_toml d1) (is_flit_toml d1) = .ok true)
    (hs2 : _set_setuptools_flit_python_requires d1 v = .ok d2) :
    _get_pyproject_toml_python_requires doc = _get_setuptools_flit_python_requires doc ∧
    _get_pyproject_toml_classifiers doc = _get_setuptools_flit_classifiers doc ∧
    _update_pyproject_python_requires doc v = .ok (some d2) := by
  refine ⟨?_, ?_, ?_⟩
  · unfold _get_pyproject_toml_python_requires
    rw [hp]
    dsimp only
    rw [if_pos rfl, hgr]
    dsimp only
    rw [hsf]
    dsimp only
    rw [if_pos rfl]
  · unfold _get_pyproject_toml_classifiers
    rw [hp]
    dsimp only
    rw [if_pos rfl, hgc]
    dsimp only
    rw [hsf]
    dsimp only
    rw [if_pos rfl]
  · unfold _update_pyproject_python_requires
    rw [hp]
    dsimp only
    rw [if_pos rfl, hs1]
    dsimp only [Except.map]
    rw [show (if true = true then d1 else doc) = d1 from if_pos rfl]
    rw [hsf1]
    dsimp only
    rw [if_pos rfl, hs2]

/-- Witness for `C7_later_check_wins` at the concrete document `docC7`. -/
theorem C7_later_check_wins_witness :
    is_poetry_toml docC7 = .ok true ∧
    orE (is_setuptools_toml docC7) (is_flit_toml docC7) = .ok true ∧
    (_get_pyproject_toml_python_requires docC7 =
       _get_setuptools_flit_python_requires docC7 ∧
     _get_pyproject_toml_classifiers docC7 = _get_setuptools_flit_classifiers docC7 ∧
     _update_pyproject_python_requires docC7 (.str ">=3.7") = .ok (some docC7d2)) :=
  ⟨rfl, rfl,
   C7_later_check_wins docC7 (.str ">=3.7") (some (.str "^3.6")) (.list [])
     docC7d1 docC7d2 rfl rfl rfl rfl rfl rfl rfl⟩

/-- C5 fails as stated: on the open handle `stC5`,
`update_python_requires` reads the stream twice, not once, and repositions
it internally — the access trace is read, seek 0, read. -/
theorem C5_counterexample :
    eventsOf (update_python_requires_stream stC5 targetC4 knownTo3_2) =
      [.read, .seek 0, .read] ∧
    List.countP (fun e => e == SEvent.read) [SEvent.read, SEvent.seek 0, SEvent.read] = 2 ∧
    SEvent.seek 0 ∈ [SEvent.read, SEvent.seek 0, SEvent.read] :=
  ⟨rfl, rfl, by decide⟩

/-- C5 (amended): when the python dependency field is present,
`update_python_requires` on a file handle reads the stream, seeks back to
position 0, and reads it again; afterwards the position is at end of
stream.  A caller wanting to re-read must seek explicitly. -/
theorem C5_stream_behavior (st : FStream) (nv known : List Version) (prv : Toml)
    (u : Option TOMLDocument)
    (h : _get_pyproject_toml_python_requires (streamRead st).1 = .ok (some prv))
    (hupd : _update_pyproject_python_requires st.doc
        (.str (compute_python_requires nv known
          (if memPy "," prv && !memPy ", " prv then "," else ", ")
          (if memPy "> " prv || memPy "= " prv then " " else ""))) = .ok u) :
    update_python_requires_stream st nv known =
      .ok ((u, []), ⟨st.doc, st.len, st.len⟩, [.read, .seek 0, .read]) := by
  unfold update_python_requires_stream
  dsimp only
  rw [h]
  dsimp only
  rw [show (streamRead (streamSeek (streamRead st).2 0)).1 = st.doc from rfl]
  rw [hupd]
  rfl

/-- Witness for `C5_stream_behavior` at the concrete handle `stC5`. -/
theorem C5_stream_behavior_witness :
    _get_pyproject_toml_python_requires (streamRead stC5).1 =
      .ok (some (.str ">=2.7,!=3.0.*")) ∧
    _update_pyproject_python_requires stC5.doc
        (.str (compute_python_requires targetC4 knownTo3_2
          (if memPy "," (.str ">=2.7,!=3.0.*") && !memPy ", " (.str ">=2.7,!=3.0.*")
           then "," else ", ")
          (if memPy "> " (.str ">=2.7,!=3.0.*") || memPy "= " (.str ">=2.7,!=3.0.*")
           then " " else ""))) = .ok (some docC4upd) ∧
    update_python_requires_stream stC5 targetC4 knownTo3_2 =
      .ok ((some docC4upd, []), ⟨stC5.doc, stC5.len, stC5.len⟩,
           [.read, .seek 0, .read]) :=
  ⟨rfl, rfl,
   C5_stream_behavior stC5 targetC4 knownTo3_2 (.str ">=2.7,!=3.0.*")
     (some docC4upd) rfl rfl⟩
